import Mathlib

/-!
Verification of the js-test-tool coverage/server core against its
natural-language specification.  The definitions below are shallow
embeddings of the Python source in `js_test_tool/coverage.py`,
`js_test_tool/suite_server.py` and `js_test_tool/util.py`.
-/

namespace JsTestTool

/-! ## Python exception model

The exception classes that appear in `coverage.py`, `suite_server.py`
and `util.py`.  `srcInstrumenterErr msg` embeds `SrcInstrumenterError(msg)`;
`connectionErr` embeds `requests.exceptions.ConnectionError`;
`osErr` embeds `OSError`; `timeoutErr` embeds `suite_server.TimeoutError`. -/
inductive PyExc where
  | connectionErr : PyExc
  | srcInstrumenterErr (msg : String) : PyExc
  | osErr : PyExc
  | timeoutErr : PyExc
  deriving DecidableEq, Repr

/-! ## Coverage data model (`coverage.py`, class `CoverageData`)

Python dictionaries are embedded as functions into `Option`:
a key maps to `none` when absent.  `CoverageData._src_dict` maps a full
source path either to `None` (an expected source with no data yet,
embedded as `some none`) or to a line dictionary (`some (some d)`).
A line dictionary maps line numbers to covered flags. -/

/-- A Python dict from line numbers to booleans (`{line_num: True/False}`). -/
abbrev LineDict : Type := Nat → Option Bool

/-- `CoverageData._src_dict`: full source path to either `None` or a line dict. -/
abbrev SrcDict : Type := String → Option (Option LineDict)

/-- Update a function-embedded dict at one key (`d[k] = v`). -/
def updateFn {β : Type} (d : String → β) (k : String) (v : β) : String → β :=
  fun k2 => if k2 = k then v else d k2

/-- Update a line dict at one key (`d[n] = b`). -/
def updateLine (d : LineDict) (n : Nat) (b : Bool) : LineDict :=
  fun m => if m = n then some b else d m

/-- One value of a JSCover `lineData` list: `null` (non-executable) or a
hit count.  Embeds the list elements described at `coverage.py` lines
308-312. -/
abbrev LineData : Type := List (Option Int)

/-- One value of the JSON cover dict for a single source: the `lineData`
key may be missing (`cover_dict.get('lineData', None)`, line 344). -/
structure CoverEntry where
  lineData : Option LineData
  deriving DecidableEq, Repr

/-- `s.startswith('/')`, computed on the character list so that concrete
instances reduce. -/
def startsWithSlash (s : String) : Bool :=
  match s.data with
  | [] => false
  | c :: _ => c = '/'

/-- `s.endswith('/')`, computed on the character list. -/
def endsWithSlash (s : String) : Bool :=
  match s.data.getLast? with
  | some c => c = '/'
  | none => false

/-- `rel_src.startswith('/')` then `rel_src[1:]` (coverage.py lines 331-332). -/
def stripSlash (s : String) : String :=
  if startsWithSlash s then String.mk (s.data.drop 1) else s

/-- `os.path.join(root_dir, rel_src)` for two POSIX path components
(coverage.py line 335).  `rel_src` has had any leading slash removed
before the call, but the general rule is kept: an absolute second
component replaces the first; otherwise a separator is inserted unless
the first component is empty or already ends with one. -/
def pathJoin (root rel : String) : String :=
  if startsWithSlash rel then rel
  else if root = "" then rel
  else if endsWithSlash root then root ++ rel
  else root ++ "/" ++ rel

/-- State of a `CoverageData` instance: `_src_dict`, `_rel_path_dict`
and `_suite_num_set` (coverage.py lines 264-280). -/
structure CovState where
  srcDict : SrcDict
  relPathDict : String → Option String
  suiteNumSet : Finset Int

/-- `CoverageData.__init__(expected_src_list)` (coverage.py lines 251-280):
every expected source is given the entry `None`. -/
def initCovState (expected : List String) : CovState where
  srcDict := fun k => if k ∈ expected then some none else none
  relPathDict := fun _ => none
  suiteNumSet := ∅

/-- The dict comprehension at coverage.py lines 355-357:
`{num: line_list[num] > 0 for num in range(len(line_list))
  if line_list[num] is not None}`. -/
def lineDictOfList (ld : LineData) : LineDict := fun n =>
  match ld[n]? with
  | some (some v) => some (decide (0 < v))
  | _ => none

/-- The merge loop at coverage.py lines 363-370: for every key of the
new cover dict, `existing_dict[line_num] = is_covered or already_covered`
with `already_covered = existing_dict.get(line_num, False)`; keys not in
the new dict are left unchanged.  (The iteration order of the Python
loop is irrelevant because dict keys are distinct.) -/
def mergeLineDict (existing : LineDict) (ld : LineData) : LineDict := fun n =>
  match lineDictOfList ld n with
  | some b => some (b || (existing n).getD false)
  | none => existing n

/-- Python `dict.get(key)` on a dict embedded as `String → Option β`,
where the stored values are themselves optional: absent key and stored
`None` are both `None`. -/
def pyGet {γ : Type} (v : Option (Option γ)) : Option γ :=
  v.getD none

/-- The body of the `for rel_src, cover_dict in cover_dict.iteritems()`
loop of `CoverageData.load_from_dict` (coverage.py lines 327-375),
processing one `(rel_src, entry)` pair. -/
def loadEntry (rootDir : String) (st : CovState) (pair : String × CoverEntry) :
    CovState :=
  let rel := stripSlash pair.1
  let full := pathJoin rootDir rel
  let st1 : CovState :=
    { st with relPathDict := updateFn st.relPathDict full (some rel) }
  match pair.2.lineData with
  | none => st1
  | some ld =>
    -- `existing_dict = self._src_dict.get(full_path)` is `None` both when
    -- the key is absent and when the stored value is `None`.
    match pyGet (st1.srcDict full) with
    | some existing =>
      { st1 with srcDict :=
          updateFn st1.srcDict full (some (some (mergeLineDict existing ld))) }
    | none =>
      { st1 with srcDict :=
          updateFn st1.srcDict full (some (some (lineDictOfList ld))) }

/-- `CoverageData.load_from_dict(root_dir, cover_dict)` (coverage.py
lines 292-375).  The embedding types `cover_dict` as a list of pairs, so
the `isinstance(cover_dict, dict)` check at line 323 always passes. -/
def loadFromDict (rootDir : String) (coverDict : List (String × CoverEntry))
    (st : CovState) : CovState :=
  coverDict.foldl (loadEntry rootDir) st

/-- `CoverageData.add_suite_num` (coverage.py lines 282-290). -/
def addSuiteNum (st : CovState) (n : Int) : CovState :=
  { st with suiteNumSet := insert n st.suiteNumSet }

/-- `CoverageData.num_file_lines` reads the real file system
(coverage.py lines 488-503); the embedding takes the file system as a
function from path to line count (0 when unreadable). -/
abbrev FileLines : Type := String → Nat

/-- `CoverageData.line_dict_for_src(full_src_path)` (coverage.py lines
386-423): a tracked source with value `None` is materialized as
`{line_num: False for line_num in range(num_file_lines(path))}`;
an untracked source yields `None`. -/
def lineDictForSrc (fs : FileLines) (st : CovState) (full : String) :
    Option LineDict :=
  match st.srcDict full with
  | none => none
  | some none => some (fun n => if n < fs full then some false else none)
  | some (some d) => some d

/-- A sequence of `load_from_dict` calls, each with its own root dir and
cover dict, applied in order to a state. -/
def loadAll (calls : List (String × List (String × CoverEntry)))
    (st : CovState) : CovState :=
  calls.foldl (fun s c => loadFromDict c.1 c.2 s) st

/-! ## Retry loops

`SrcInstrumenter._retry` (coverage.py lines 128-164) and the standalone
`retry` of util.py (lines 10-69).  A run of a retry loop is driven by a
trace `f : Nat → Except PyExc α` giving the outcome of the i-th
invocation of `try_func` (0-indexed).  The loop also records the
operations it performs, so that theorems can speak about how many
attempts, sleeps and recovery calls a run makes. -/

/-- An operation performed inside a retry loop. -/
inductive LoopOp where
  | attemptOp (i : Nat)
  | sleepOp
  | recoverOp
  deriving DecidableEq, Repr

/-- Result of a run of `SrcInstrumenter._retry`: the value returned or
exception re-raised, the number of `try_func` invocations, and the list
of operations the loop performed. -/
structure CovRetryResult (α : Type) where
  result : Except PyExc α
  attempts : Nat
  ops : List LoopOp

/-- The `while True` loop of `SrcInstrumenter._retry` (coverage.py lines
144-164) starting at invocation index `i` (so `num_attempts = i` on
entry).  On failure: re-raise if the exception class is in
`fail_fast_errors`; re-raise if `num_attempts` reaches `max_attempts`;
otherwise sleep and loop.  The loop body performs exactly one `try_func`
call per iteration and contains no recovery action. -/
def covRetryGo {α : Type} (f : Nat → Except PyExc α) (failFast : PyExc → Bool)
    (maxAttempts : Nat) (i : Nat) : CovRetryResult α :=
  match f i with
  | .ok a => ⟨.ok a, i + 1, [.attemptOp i]⟩
  | .error e =>
    if failFast e then ⟨.error e, i + 1, [.attemptOp i]⟩
    else if h : maxAttempts ≤ i + 1 then ⟨.error e, i + 1, [.attemptOp i]⟩
    else
      let rest := covRetryGo f failFast maxAttempts (i + 1)
      ⟨rest.result, rest.attempts, .attemptOp i :: .sleepOp :: rest.ops⟩
termination_by maxAttempts - i
decreasing_by omega

/-- `SrcInstrumenter._retry(try_func, max_attempts, fail_fast_errors)`
(coverage.py lines 128-164).  `failFast e = true` embeds membership of
the exception class in `fail_fast_errors` (a `fun _ => false` predicate
embeds `fail_fast_errors=None`). -/
def covRetry {α : Type} (f : Nat → Except PyExc α) (failFast : PyExc → Bool)
    (maxAttempts : Nat) : CovRetryResult α :=
  covRetryGo f failFast maxAttempts 0

/-- Result of a run of util.py `retry`: the value or exception, the
number of `try_func` invocations, and the number of `recover_func`
invocations. -/
structure UtilRetryResult (α : Type) where
  result : Except PyExc α
  attempts : Nat
  recoverCalls : Nat

/-- The `while True` loop of util.py `retry` (lines 41-69) starting at
invocation index `i`.  After a retryable failure it sleeps, then invokes
`recover_func` when one is provided and `num_attempts` (here `i + 1`)
has reached `num_attempts_before_recover`. -/
def utilRetryGo {α : Type} (f : Nat → Except PyExc α) (failFast : PyExc → Bool)
    (maxAttempts nb : Nat) (recoverProvided : Bool) (i : Nat) :
    UtilRetryResult α :=
  match f i with
  | .ok a => ⟨.ok a, i + 1, 0⟩
  | .error e =>
    if failFast e then ⟨.error e, i + 1, 0⟩
    else if h : maxAttempts ≤ i + 1 then ⟨.error e, i + 1, 0⟩
    else
      let doRec : Bool := recoverProvided && decide (nb ≤ i + 1)
      let rest := utilRetryGo f failFast maxAttempts nb recoverProvided (i + 1)
      ⟨rest.result, rest.attempts, (if doRec then 1 else 0) + rest.recoverCalls⟩
termination_by maxAttempts - i
decreasing_by omega

/-- util.py `retry(try_func, max_attempts, wait_sec, recover_func,
num_attempts_before_recover, fail_fast_errors)` (lines 10-69).
`recoverProvided` embeds `recover_func is not None`; the wait time does
not affect the returned value. -/
def utilRetry {α : Type} (f : Nat → Except PyExc α) (failFast : PyExc → Bool)
    (maxAttempts nb : Nat) (recoverProvided : Bool) : UtilRetryResult α :=
  utilRetryGo f failFast maxAttempts nb recoverProvided 0

/-- The number of recovery calls util.py `retry` performs across `k`
consecutive retryable failures at invocation indices `i, i+1, ...`:
after the failure of invocation `j` (0-indexed), `num_attempts = j + 1`
and recovery runs iff a recover function is provided and
`nb ≤ num_attempts`. -/
def recoverCount (recoverProvided : Bool) (nb : Nat) : Nat → Nat → Nat
  | 0, _ => 0
  | k + 1, i =>
    (if recoverProvided && decide (nb ≤ i + 1) then 1 else 0)
      + recoverCount recoverProvided nb k (i + 1)

/-! ## SrcInstrumenter (`coverage.py`) -/

/-- `SrcInstrumenter.MAX_CONNECT_ATTEMPTS` (coverage.py line 34). -/
def maxConnectAttempts : Nat := 10

/-- `SrcInstrumenter.MAX_START_ATTEMPTS` (coverage.py line 30). -/
def maxStartAttempts : Nat := 10

/-- Outcome of one `requests.get` call made by
`SrcInstrumenter._get_src_from_jscover`. -/
inductive GetOutcome where
  | connErr
  | resp (status : Nat) (text : String)
  deriving DecidableEq, Repr

/-- The URL built at coverage.py line 235. -/
def jscoverUrl (port : Nat) (rel : String) : String :=
  "http://127.0.0.1:" ++ toString port ++ "/" ++ rel

/-- `SrcInstrumenter._get_src_from_jscover(rel_path)` (coverage.py lines
226-244) given the outcome of its single HTTP GET: a connection error
propagates; a non-200 status raises `SrcInstrumenterError` naming the
URL and status code; otherwise the body text is returned. -/
def getSrcFromJscover (port : Nat) (rel : String) (o : GetOutcome) :
    Except PyExc String :=
  match o with
  | .connErr => .error .connectionErr
  | .resp status text =>
    if status ≠ 200 then
      .error (.srcInstrumenterErr
        ("Could not retrieve url \x27" ++ jscoverUrl port rel
          ++ "\x27: status code " ++ toString status))
    else .ok text

/-- Result of a run of `SrcInstrumenter.instrumented_src`. -/
structure InstrRun where
  result : Except PyExc String
  httpGets : Nat
  startCallsInRetryLoop : Nat

/-- `SrcInstrumenter.instrumented_src(rel_path)` (coverage.py lines
105-126), driven by `trace i` = outcome of the i-th HTTP GET.  The
retry call at line 123 passes `MAX_CONNECT_ATTEMPTS` and no
`fail_fast_errors`; after exhausted retries a `ConnectionError` is
converted to `SrcInstrumenterError`, any other exception (in particular
the non-200 `SrcInstrumenterError`) propagates unchanged.  Each
`attemptOp` of the loop issues exactly one HTTP GET; the number of
`start()` invocations inside the retry loop is the number of
`recoverOp` operations the loop performed. -/
def instrumentedSrcRun (port : Nat) (rel : String) (trace : Nat → GetOutcome) :
    InstrRun :=
  let r := covRetry (fun i => getSrcFromJscover port rel (trace i))
    (fun _ => false) maxConnectAttempts
  { result :=
      match r.result with
      | .error .connectionErr =>
        .error (.srcInstrumenterErr "Could not connect to JSCover server.")
      | x => x
    httpGets :=
      (r.ops.filter (fun op => match op with
        | .attemptOp _ => true
        | _ => false)).length
    startCallsInRetryLoop := (r.ops.filter (fun op => op = .recoverOp)).length }

/-- `isinstance(ex, OSError)` as the fail-fast predicate used by
`SrcInstrumenter.start` (coverage.py line 80). -/
def isOSErr : PyExc → Bool
  | .osErr => true
  | _ => false

/-- `SrcInstrumenter.start()` on the not-yet-started path (coverage.py
lines 75-87), driven by `f i` = outcome of the i-th `_start_jscover`
attempt (returning a port number on success).  An `OSError` is
fail-fast and converted to the could-not-find message; a
`SrcInstrumenterError` escaping the retry is converted to the
port-conflict message.  The second component is the number of
`_start_jscover` attempts made (each spawns the subprocess once). -/
def startRun (tool : String) (f : Nat → Except PyExc Nat) :
    Except PyExc Nat × Nat :=
  let r := covRetry f isOSErr maxStartAttempts
  (match r.result with
   | .ok v => .ok v
   | .error .osErr =>
     .error (.srcInstrumenterErr
       ("Could not find JSCover JAR file at \x27" ++ tool ++ "\x27"))
   | .error (.srcInstrumenterErr _) =>
     .error (.srcInstrumenterErr
       "Could not start JSCover, most likely due to port conflicts.")
   | .error e => .error e,
   r.attempts)

/-- Behavior of `subprocess.Popen.terminate()` for the current
subprocess: it either returns or raises. -/
inductive TermBehavior where
  | termOk
  | termRaises (e : PyExc)
  deriving DecidableEq, Repr

/-- `SrcInstrumenter.stop()` (coverage.py lines 93-103): when
`self._jscover` is set it calls `terminate()` with no exception handler,
so a raising `terminate` propagates to the caller; when no subprocess is
running it only logs a warning. -/
def stopRun (jscover : Option TermBehavior) : Except PyExc Unit :=
  match jscover with
  | some .termOk => .ok ()
  | some (.termRaises e) => .error e
  | none => .ok ()

/-! ## Port selection (`coverage.py`, `_random_unused_port`) -/

/-- `random.randint(10000, 40000)` (coverage.py line 175): the
pseudo-random draw is embedded as an arbitrary stream of naturals, each
coerced into the inclusive range 10000..40000. -/
def randintPort (v : Nat) : Nat := 10000 + v % 30001

/-- The `while port_num is None or port_num in cls.used_ports` loop of
`_random_unused_port` (coverage.py lines 173-175), reading stream values
from index `i`; `fuel` bounds the number of draws (the Python loop can
run unboundedly if the stream keeps hitting used ports). -/
def randomPortLoop (stream : Nat → Nat) (used : List Nat) :
    Nat → Nat → Option (Nat × Nat)
  | _, 0 => none
  | i, fuel + 1 =>
    let p := randintPort (stream i)
    if p ∈ used then randomPortLoop stream used (i + 1) fuel
    else some (p, i + 1)

/-- `SrcInstrumenter._random_unused_port()` (coverage.py lines 166-185):
draw until the port is not in `used_ports`, then append it to
`used_ports` (the class-level list only ever grows).  Returns the port,
the next stream index and the new `used_ports`. -/
def randomUnusedPort (stream : Nat → Nat) (i : Nat) (used : List Nat)
    (fuel : Nat) : Option (Nat × Nat × List Nat) :=
  match randomPortLoop stream used i fuel with
  | none => none
  | some (p, i2) => some (p, i2, used ++ [p])

/-- A sequence of `n` port selections in one process, each performed by
`_random_unused_port` against the `used_ports` state left by the
previous one (this covers both back-to-back `start()` calls and repeated
selections inside one `start()` retry loop). -/
def selectPorts (stream : Nat → Nat) (fuel : Nat) :
    Nat → Nat → List Nat → Option (List Nat × Nat × List Nat)
  | 0, i, used => some ([], i, used)
  | n + 1, i, used =>
    match randomUnusedPort stream i used fuel with
    | none => none
    | some (p, i2, used2) =>
      match selectPorts stream fuel n i2 used2 with
      | none => none
      | some (ps, i3, used3) => some (p :: ps, i3, used3)

/-! ## SuitePageServer coverage synchronization (`suite_server.py`)

`SuitePageServer._has_all_coverage` (lines 199-211) compares
`sorted(self.coverage_data.suite_name_list())` with
`sorted(self.desc_dict.keys())`.  The `suite_name_list` /
`add_suite_name` methods it relies on are not part of the
`CoverageData` class in `src/coverage.py` (which has `suite_num_list` /
`add_suite_num`); the Suite Completion Set they maintain is therefore
modelled from the spec below.  Both name collections are sets with
unique elements: dict keys are unique, and the completion collection is
described by the spec as a set. -/

/-- Modelled from the spec: `CoverageData.suite_name_list()` — invoked by
`SuitePageServer._has_all_coverage` (suite_server.py line 206) but missing
from `src/js_test_tool/coverage.py`.  Per the spec, the Suite Completion
Set is "a set of suite names for which at least one coverage POST has
been received"; `suite_name_list` is its list view (sorting it is
harmless since `_has_all_coverage` sorts again). -/
def suiteNameList (completed : Finset String) : List String :=
  completed.sort (· ≤ ·)

/-- State of a `SuitePageServer` relevant to `all_coverage_data`:
the registered suite names (`desc_dict` keys), the Suite Completion Set
(see `suiteNameList`), and whether coverage collection is active
(`self.coverage_data is not None`). -/
structure ServerState where
  registeredSuites : Finset String
  completedSuites : Finset String
  coverageEnabled : Bool

/-- `SuitePageServer._has_all_coverage` (suite_server.py lines 199-211):
`sorted(suite_name_list) == sorted(self.desc_dict.keys())`. -/
def hasAllCoverage (st : ServerState) : Bool :=
  decide (suiteNameList st.completedSuites = suiteNameList st.registeredSuites)

/-- `SuitePageServer.COVERAGE_TIMEOUT = 2.0` seconds, in tenths of a
second (suite_server.py line 59). -/
def coverageTimeoutTenths : Nat := 20

/-- `SuitePageServer._block_until(success_func)` (suite_server.py lines
180-197), with elapsed wall-clock time measured in tenths of a second:
loop while the success function is false, raising `TimeoutError` once
the elapsed time exceeds `COVERAGE_TIMEOUT`, sleeping
`COVERAGE_WAIT_TIME` (0.1 s) per iteration.  The success function is
evaluated after all POSTs have been processed, so it is constant during
the wait. -/
def blockUntilGo (success : Bool) (elapsed : Nat) : Except PyExc Unit :=
  if success then .ok ()
  else if h : coverageTimeoutTenths < elapsed then .error .timeoutErr
  else blockUntilGo success (elapsed + 1)
termination_by coverageTimeoutTenths + 1 - elapsed
decreasing_by simp [coverageTimeoutTenths] at *; omega

/-- `SuitePageServer.all_coverage_data()` (suite_server.py lines
163-178): when coverage data is collected, block until every suite has
reported (or time out), then return the coverage data (`some ()`);
otherwise return `None` (`none`). -/
def allCoverageData (st : ServerState) : Except PyExc (Option Unit) :=
  if st.coverageEnabled then
    match blockUntilGo (hasAllCoverage st) 0 with
    | .ok _ => .ok (some ())
    | .error e => .error e
  else .ok none

/-! ## Page handler chain for `GET /suite/{name}/include/{path}`
(`suite_server.py`)

The dispatcher (`SuitePageRequestHandler._handle_request`, lines
781-821) tries the handlers in registration order and serves the first
non-`None` content with HTTP 200 (no `Range` header in the scenarios
below).  For a GET of `/suite/{name}/include/{path}` with coverage
enabled the chain is: `SuitePageHandler` (regex cannot match: its suite
group `[^?/]+` admits no slash after the suite name), `RunnerPageHandler`
(regex requires `/runner/`), `InstrumentedSrcPageHandler`,
`StoreCoveragePageHandler` (POST-only, so a GET is not handled), and
`DependencyPageHandler`.  Only the latter two of the matching handlers
are therefore modelled. -/

/-- The part of a `SuiteDescription` used by the dependency and
instrumented-source handlers. -/
structure SuiteDesc where
  rootDir : String
  libPaths : List String
  srcPaths : List String
  specPaths : List String
  fixturePaths : List String
  deriving DecidableEq, Repr

/-- `self._desc_dict`: suite name to description. -/
abbrev DescDict := String → Option SuiteDesc

/-- `self._instr_dict`: suite name to the behavior of that suite's
`SrcInstrumenter.instrumented_src` (`none` inside = the call raises
`SrcInstrumenterError`). -/
abbrev InstrDict := String → Option (String → Option String)

/-- The file system seen by `open(full_path, 'rb')`: path to file
contents (`none` = `IOError`).  Contents are modelled as strings of
bytes. -/
abbrev FileSystem := String → Option String

/-- `InstrumentedSrcPageHandler._is_src_file` (suite_server.py lines
599-610). -/
def isSrcFile (descDict : DescDict) (suite rel : String) : Bool :=
  match descDict suite with
  | none => false
  | some d => decide (rel ∈ d.srcPaths)

/-- `InstrumentedSrcPageHandler._send_instrumented_src` (suite_server.py
lines 568-597): `None` when the suite has no instrumenter or when
`instrumented_src` raises `SrcInstrumenterError` (both are logged). -/
def sendInstrumentedSrc (instrDict : InstrDict) (suite rel : String) :
    Option String :=
  match instrDict suite with
  | none => none
  | some instr => instr rel

/-- `BasePageHandler.safe_str_buffer(content)` (suite_server.py lines
321-334).  `StringIO` (the pure-Python module imported at line 17)
coerces a non-string buffer with `str(buf)`, so `StringIO(None)` is a
buffer holding the four bytes `"None"`; a unicode string is UTF-8
encoded (identified here with the string itself). -/
def safeStrBuffer (content : Option String) : String :=
  match content with
  | some s => s
  | none => "None"

/-- `InstrumentedSrcPageHandler.load_page` (suite_server.py lines
540-559): for a source file it returns
`safe_str_buffer(self._send_instrumented_src(...))` unconditionally —
also when `_send_instrumented_src` returned `None`. -/
def instrLoadPage (descDict : DescDict) (instrDict : InstrDict)
    (suite rel : String) : Option String :=
  if isSrcFile descDict suite rel then
    some (safeStrBuffer (sendInstrumentedSrc instrDict suite rel))
  else none

/-- `DependencyPageHandler._dependency_path` (suite_server.py lines
487-516). -/
def dependencyPath (descDict : DescDict) (suite path : String) :
    Option String :=
  match descDict suite with
  | none => none
  | some d =>
    if path ∈ d.libPaths ++ d.srcPaths ++ d.specPaths ++ d.fixturePaths then
      some (pathJoin d.rootDir path)
    else none

/-- `DependencyPageHandler.load_page` (suite_server.py lines 449-478). -/
def depLoadPage (descDict : DescDict) (fs : FileSystem) (suite rel : String) :
    Option String :=
  match dependencyPath descDict suite rel with
  | none => none
  | some full => fs full

/-- The dispatcher loop of `_handle_request` (suite_server.py lines
781-821) specialized to `GET /suite/{suite}/include/{rel}` with coverage
enabled and no `Range` header: first non-`None` handler content is
served with status 200; if no handler produces content the response is
404. -/
def dispatchIncludeGet (descDict : DescDict) (instrDict : InstrDict)
    (fs : FileSystem) (suite rel : String) : Nat × String :=
  match instrLoadPage descDict instrDict suite rel with
  | some body => (200, body)
  | none =>
    match depLoadPage descDict fs suite rel with
    | some body => (200, body)
    | none => (404, "")

/-! ## Byte-range requests (`suite_server.py`, lines 823-993)

File contents are byte lists.  The `Range` header is embedded after the
`"bytes="` prefix test and comma split of `_requested_byte_range`
(lines 842-871), and after the `int()` parse of `_parse_byte_range`
(lines 906-914): each sub-range is a pair of optional integers, and a
header whose numeric parts fail to parse is `unrecognized`. -/

/-- Outcome of `_requested_byte_range`: no range requested (serve the
whole file with 200), an unsatisfiable range (`RequestRangeError`,
served as 406), or a start/end byte pair. -/
inductive RangeOutcome where
  | noRange
  | unsatisfiable
  | range (startPos endPos : Int)
  deriving DecidableEq, Repr

/-- `SuitePageRequestHandler._parse_byte_range` (suite_server.py lines
890-940) on the already-split, already-parsed optional integers:
`START-END` errors when start > end, otherwise clamps the end to
`file_size - 1`; `START-` runs to the end of the file; `-LENGTH` is a
suffix; `-` is an invalid byte range served as the full file. -/
def parseByteRange (startPos endPos : Option Int) (fileSize : Int) :
    RangeOutcome :=
  match startPos, endPos with
  | some s, some e =>
    if s > e then .unsatisfiable else .range s (min e (fileSize - 1))
  | some s, none => .range s (fileSize - 1)
  | none, some len => .range (fileSize - len) (fileSize - 1)
  | none, none => .noRange

/-- A request's `Range` header: absent (or empty), not starting with
`"bytes="`, or the comma-separated list of sub-ranges after
`"bytes="`. -/
inductive RangeHeader where
  | absent
  | unrecognized
  | ranges (rs : List (Option Int × Option Int))

/-- `SuitePageRequestHandler._requested_byte_range` (suite_server.py
lines 823-871): multiple sub-ranges are not implemented and the whole
file is served; a single sub-range is parsed.  (Splitting a string on
`","` never yields an empty list, so the `[]` case is unreachable.) -/
def requestedByteRange (hdr : RangeHeader) (fileSize : Int) : RangeOutcome :=
  match hdr with
  | .absent => .noRange
  | .unrecognized => .noRange
  | .ranges rs =>
    if rs.length > 1 then .noRange
    else
      match rs with
      | [r] => parseByteRange r.1 r.2 fileSize
      | _ => .noRange

/-- One `fsrc.read(length)` call on a buffer at position `pos`
(shutil.copyfileobj's chunk read): `read(0)` is empty, a negative length
reads to the end of the file, a positive length reads at most that many
bytes. -/
def readAt (content : List Nat) (pos : Nat) (len : Int) : List Nat :=
  if len = 0 then []
  else if len < 0 then content.drop pos
  else (content.drop pos).take len.toNat

/-- The loop of Python 2 `shutil.copyfileobj(fsrc, fdst, length)`:
`length` is the PER-READ buffer size; the loop keeps reading chunks of
that size and writing them until a read returns empty.  `fuel` bounds
the iterations (`content.length + 1` always suffices, since each nonempty
chunk advances the position). -/
def copyLoop (content : List Nat) (len : Int) : Nat → Nat → List Nat
  | _, 0 => []
  | pos, fuel + 1 =>
    let chunk := readAt content pos len
    if chunk = [] then [] else chunk ++ copyLoop content len (pos + chunk.length) fuel

/-- `shutil.copyfileobj` on a buffer positioned at `pos` with buffer
size `len`. -/
def copyFileObj (content : List Nat) (pos : Nat) (len : Int) : List Nat :=
  copyLoop content len pos (content.length + 1)

/-- The observable parts of a response sent by
`SuitePageRequestHandler._send_response`: the status line, the
`Content-Range` and `Content-Length` headers, and the bytes written to
the socket after the headers. -/
structure HttpResponse where
  status : Nat
  contentRange : Option String
  contentLength : Int
  body : List Nat
  deriving DecidableEq, Repr

/-- `'bytes {0}-{1}/{2}'.format(start_pos, end_pos, file_size)`
(suite_server.py lines 963-966). -/
def contentRangeStr (s e size : Int) : String :=
  "bytes " ++ toString s ++ "-" ++ toString e ++ "/" ++ toString size

/-- `SuitePageRequestHandler._send_response` (suite_server.py lines
942-993).  Without a byte range the whole file is copied (default
16384-byte chunks).  With a byte range `(s, e)` the headers advertise
`Content-Range: bytes s-e/size` and `Content-Length: e - s + 1`, the
buffer is sought to `s`, and `shutil.copyfileobj(content, wfile,
copy_len)` is called with `copy_len = e - s` — which `copyfileobj`
treats as a buffer size, not a byte count. -/
def sendResponse (status : Nat) (content : Option (List Nat))
    (byteRange : Option (Int × Int)) : HttpResponse :=
  match content with
  | none =>
    { status := status, contentRange := none, contentLength := 0, body := [] }
  | some data =>
    match byteRange with
    | none =>
      { status := status, contentRange := none,
        contentLength := (data.length : Int),
        body := copyFileObj data 0 16384 }
    | some (s, e) =>
      { status := status,
        contentRange := some (contentRangeStr s e (data.length : Int)),
        contentLength := e - s + 1,
        body := copyFileObj data s.toNat (e - s) }

/-- The range-handling part of `_handle_request` (suite_server.py lines
796-817) for a matched resource with contents `content`: a
`RequestRangeError` is sent as 406 with no content, no byte range as 200
with the full file, and a byte range as 206 partial content. -/
def handleRangedRequest (content : List Nat) (hdr : RangeHeader) :
    HttpResponse :=
  match requestedByteRange hdr (content.length : Int) with
  | .unsatisfiable => sendResponse 406 none none
  | .noRange => sendResponse 200 (some content) none
  | .range s e => sendResponse 206 (some content) (some (s, e))

/-- Line `L` of full source path `S` is recorded as covered in a
`CoverageData` state. -/
def coveredAt (st : CovState) (S : String) (L : Nat) : Prop :=
  ∃ d, st.srcDict S = some (some d) ∧ d L = some true

/-- A 10-byte resource whose i-th byte is `i`. -/
def c8Content : List Nat := List.range 10

/-- A suite-description dict with one suite (`test-suite-0`) rooted at
`/root` with the single source file `src.js`. -/
def c3DescDict : DescDict := fun s =>
  if s = "test-suite-0" then some ⟨"/root", [], ["src.js"], [], []⟩ else none

/-- An instrumenter dict whose instrumenter raises
`SrcInstrumenterError` for every path. -/
def c3InstrDict : InstrDict := fun s =>
  if s = "test-suite-0" then some (fun _ => none) else none

/-- A file system holding the uninstrumented source file on disk. -/
def c3Fs : FileSystem := fun p =>
  if p = "/root/src.js" then some "var x = 1;" else none

/-- Two coverage reports for the same source: the first covers line 0,
the second reports line 0 with a hit count of 0. -/
def c1WitCalls : List (String × List (String × CoverEntry)) :=
  [("/root_dir", [("/src1.js", ⟨some [some 2, none, some 0]⟩)]),
   ("/root_dir", [("src1.js", ⟨some [some 0, some 0, some 1]⟩)])]

/-- The server state of the spec example: suites `a` and `b` both
registered, both having POSTed coverage, coverage enabled. -/
def c2Server : ServerState :=
  { registeredSuites := {"a", "b"}
    completedSuites := {"a", "b"}
    coverageEnabled := true }

/-! ## Theorems -/

/-- `lineDictOfList` at an index holding a positive hit count. -/
lemma lineDictOfList_pos {ld : LineData} {L : Nat} {v : Int}
    (hget : ld[L]? = some (some v)) (hv : 0 < v) :
    lineDictOfList ld L = some true := by
  simp [lineDictOfList, hget, hv]

/-- Merging never downgrades a covered line. -/
lemma mergeLineDict_true (d : LineDict) (ld : LineData) (L : Nat)
    (h : d L = some true) : mergeLineDict d ld L = some true := by
  unfold mergeLineDict
  cases hld : lineDictOfList ld L with
  | none => simpa [hld] using h
  | some b => simp [hld, h]

/-- Merging a report with a positive hit count marks the line covered. -/
lemma mergeLineDict_pos (d : LineDict) {ld : LineData} {L : Nat} {v : Int}
    (hget : ld[L]? = some (some v)) (hv : 0 < v) :
    mergeLineDict d ld L = some true := by
  simp [mergeLineDict, lineDictOfList_pos hget hv]

/-- Value of `_src_dict` at any key after processing one report entry. -/
lemma loadEntry_srcDict (root : String) (p : String × CoverEntry)
    (st : CovState) (S : String) :
    (loadEntry root st p).srcDict S =
      if S = pathJoin root (stripSlash p.1) then
        match p.2.lineData with
        | none => st.srcDict S
        | some ld =>
          match pyGet (st.srcDict (pathJoin root (stripSlash p.1))) with
          | some existing => some (some (mergeLineDict existing ld))
          | none => some (some (lineDictOfList ld))
      else st.srcDict S := by
  unfold loadEntry
  cases hld : p.2.lineData with
  | none => simp
  | some ld =>
    cases hb : pyGet (st.srcDict (pathJoin root (stripSlash p.1))) with
    | none => by_cases hS : S = pathJoin root (stripSlash p.1) <;>
        simp [hb, updateFn, hS]
    | some existing => by_cases hS : S = pathJoin root (stripSlash p.1) <;>
        simp [hb, updateFn, hS]

/-- Processing one report entry preserves coveredness of any line. -/
lemma loadEntry_preserves (root : String) (p : String × CoverEntry)
    {st : CovState} {S : String} {L : Nat}
    (h : coveredAt st S L) : coveredAt (loadEntry root st p) S L := by
  obtain ⟨d, hd, hdl⟩ := h
  by_cases hS : S = pathJoin root (stripSlash p.1)
  · cases hld : p.2.lineData with
    | none =>
      refine ⟨d, ?_, hdl⟩
      rw [loadEntry_srcDict, if_pos hS]
      simp only [hld]
      exact hd
    | some ld =>
      refine ⟨mergeLineDict d ld, ?_, mergeLineDict_true d ld L hdl⟩
      rw [loadEntry_srcDict]
      simp only [if_pos hS, hld]
      rw [← hS, hd]
      rfl
  · exact ⟨d, by rw [loadEntry_srcDict]; simp [hS, hd], hdl⟩

/-- Processing a report entry with a positive hit count at line `L` of a
source resolving to `S` marks `(S, L)` covered, from any state. -/
lemma loadEntry_establish (root : String) (p : String × CoverEntry)
    (st : CovState) {S : String} {L : Nat} {ld : LineData} {v : Int}
    (hS : pathJoin root (stripSlash p.1) = S)
    (hld : p.2.lineData = some ld)
    (hget : ld[L]? = some (some v)) (hv : 0 < v) :
    coveredAt (loadEntry root st p) S L := by
  have hsd := loadEntry_srcDict root p st S
  rw [if_pos hS.symm, hld] at hsd
  cases hb : pyGet (st.srcDict (pathJoin root (stripSlash p.1))) with
  | none =>
    rw [hb] at hsd
    exact ⟨lineDictOfList ld, hsd, lineDictOfList_pos hget hv⟩
  | some existing =>
    rw [hb] at hsd
    exact ⟨mergeLineDict existing ld, hsd, mergeLineDict_pos existing hget hv⟩

/-- A left fold preserves any invariant preserved by each step. -/
lemma foldl_preserves {β : Type} (f : CovState → β → CovState)
    (P : CovState → Prop) (hf : ∀ st b, P st → P (f st b)) :
    ∀ (l : List β) (st : CovState), P st → P (l.foldl f st) := by
  intro l
  induction l with
  | nil => intro st h; exact h
  | cons b rest ih => intro st h; exact ih (f st b) (hf st b h)

/-- `load_from_dict` preserves coveredness of any line. -/
lemma loadFromDict_preserves (root : String)
    (entries : List (String × CoverEntry)) {st : CovState} {S : String}
    {L : Nat} (h : coveredAt st S L) :
    coveredAt (loadFromDict root entries st) S L :=
  foldl_preserves (loadEntry root) (fun s => coveredAt s S L)
    (fun s p hp => loadEntry_preserves root p hp) entries st h

/-- A `load_from_dict` call containing a positive hit count for `(S, L)`
marks `(S, L)` covered, from any state. -/
lemma loadFromDict_establish (root : String)
    (entries : List (String × CoverEntry)) (st : CovState) {S : String}
    {L : Nat}
    (h : ∃ p ∈ entries, pathJoin root (stripSlash p.1) = S ∧
      ∃ ld, p.2.lineData = some ld ∧
        ∃ v, ld[L]? = some (some v) ∧ 0 < v) :
    coveredAt (loadFromDict root entries st) S L := by
  induction entries generalizing st with
  | nil => simp at h
  | cons q rest ih =>
    obtain ⟨p, hp, hS, ld, hld, v, hget, hv⟩ := h
    rcases List.mem_cons.mp hp with rfl | hmem
    · exact foldl_preserves (loadEntry root) (fun s => coveredAt s S L)
        (fun s p2 hp2 => loadEntry_preserves root p2 hp2) rest _
        (loadEntry_establish root p st hS hld hget hv)
    · exact ih _ ⟨p, hmem, hS, ld, hld, v, hget, hv⟩

/-- A sequence of `load_from_dict` calls preserves coveredness. -/
lemma loadAll_preserves (calls : List (String × List (String × CoverEntry)))
    {st : CovState} {S : String} {L : Nat} (h : coveredAt st S L) :
    coveredAt (loadAll calls st) S L :=
  foldl_preserves _ (fun s => coveredAt s S L)
    (fun s c hc => loadFromDict_preserves c.1 c.2 hc) calls st h

/-- A sequence of `load_from_dict` calls, one of which contains a
positive hit count for `(S, L)`, marks `(S, L)` covered. -/
lemma loadAll_establish (calls : List (String × List (String × CoverEntry)))
    (st : CovState) {S : String} {L : Nat}
    (h : ∃ c ∈ calls, ∃ p ∈ c.2, pathJoin c.1 (stripSlash p.1) = S ∧
      ∃ ld, p.2.lineData = some ld ∧
        ∃ v, ld[L]? = some (some v) ∧ 0 < v) :
    coveredAt (loadAll calls st) S L := by
  induction calls generalizing st with
  | nil => simp at h
  | cons c rest ih =>
    obtain ⟨c2, hc2, hrest⟩ := h
    rcases List.mem_cons.mp hc2 with rfl | hmem
    · exact foldl_preserves _ (fun s => coveredAt s S L)
        (fun s c3 hc3 => loadFromDict_preserves c3.1 c3.2 hc3) rest _
        (loadFromDict_establish c2.1 c2.2 st hrest)
    · exact ih _ ⟨c2, hmem, hrest⟩

/-- C1: Coverage merge is monotonic.  For every sequence of
`CoverageData.load_from_dict` calls, if any report in the sequence marks
line `L` of a source resolving to absolute path `S` as covered (a hit
count greater than 0 at index `L` of its `lineData` list), then after
the whole sequence `line_dict_for_src(S)` maps `L` to `True`, regardless
of the order of the calls and of later reports giving line `L` a hit
count of 0. -/
theorem c1_coverage_merge_monotonic
    (expected : List String)
    (calls : List (String × List (String × CoverEntry)))
    (S : String) (L : Nat) (fs : FileLines)
    (h : ∃ c ∈ calls, ∃ p ∈ c.2, pathJoin c.1 (stripSlash p.1) = S ∧
      ∃ ld, p.2.lineData = some ld ∧
        ∃ v, ld[L]? = some (some v) ∧ 0 < v) :
    ∃ d, lineDictForSrc fs (loadAll calls (initCovState expected)) S = some d
      ∧ d L = some true := by
  obtain ⟨d, hd, hdl⟩ := loadAll_establish calls (initCovState expected) h
  exact ⟨d, by simp [lineDictForSrc, hd], hdl⟩

/-- Witness for C1 at a concrete input: line 0 of `/src1.js` is covered
by the first report and reported uncovered by the second, and the final
line dict still maps it to `True`. -/
theorem c1_coverage_merge_monotonic_witness :
    (∃ c ∈ c1WitCalls, ∃ p ∈ c.2,
      pathJoin c.1 (stripSlash p.1) = "/root_dir/src1.js" ∧
      ∃ ld, p.2.lineData = some ld ∧
        ∃ v, ld[0]? = some (some v) ∧ 0 < v)
    ∧ ∃ d, lineDictForSrc (fun _ => 0) (loadAll c1WitCalls (initCovState []))
        "/root_dir/src1.js" = some d ∧ d 0 = some true :=
  have hhyp : ∃ c ∈ c1WitCalls, ∃ p ∈ c.2,
      pathJoin c.1 (stripSlash p.1) = "/root_dir/src1.js" ∧
      ∃ ld, p.2.lineData = some ld ∧
        ∃ v, ld[0]? = some (some v) ∧ 0 < v :=
    ⟨("/root_dir", [("/src1.js", ⟨some [some 2, none, some 0]⟩)]),
      by simp [c1WitCalls],
      ("/src1.js", ⟨some [some 2, none, some 0]⟩), by simp,
      by decide, [some 2, none, some 0], rfl, 2, by decide, by decide⟩
  ⟨hhyp, c1_coverage_merge_monotonic [] c1WitCalls "/root_dir/src1.js" 0
    (fun _ => 0) hhyp⟩

/-- `_block_until` with a success function that is already true returns
at once; with one that stays false it raises `TimeoutError` once the
timeout elapses. -/
lemma blockUntilGo_false :
    ∀ (n e : Nat), coverageTimeoutTenths + 1 - e ≤ n →
      blockUntilGo false e = .error .timeoutErr := by
  intro n
  induction n with
  | zero =>
    intro e he
    unfold blockUntilGo
    have h : coverageTimeoutTenths < e := by omega
    simp [h]
  | succ n ih =>
    intro e he
    unfold blockUntilGo
    by_cases h : coverageTimeoutTenths < e
    · simp [h]
    · simp [h]
      exact ih (e + 1) (by omega)

/-- The polling wait reduces to a test of the (constant) success
function: success returns, failure times out. -/
lemma blockUntilGo_eq (success : Bool) (e : Nat) :
    blockUntilGo success e =
      if success then .ok () else .error .timeoutErr := by
  cases success with
  | true => unfold blockUntilGo; simp
  | false => simpa using blockUntilGo_false _ e le_rfl

/-- Equal sorted name lists mean equal name sets (both collections hold
unique names: dict keys and a set). -/
lemma suiteNameList_inj {a b : Finset String}
    (h : suiteNameList a = suiteNameList b) : a = b := by
  unfold suiteNameList at h
  ext x
  rw [← Finset.mem_sort (α := String) (· ≤ ·), h,
    Finset.mem_sort (α := String) (· ≤ ·)]

/-- C2: With coverage enabled, `all_coverage_data()` returns the
coverage data if and only if the set of suite names for which a coverage
POST was recorded equals the full set of registered suite names; when
they differ it raises `TimeoutError` (after polling every
`COVERAGE_WAIT_TIME` up to `COVERAGE_TIMEOUT`) rather than returning
partial data. -/
theorem c2_all_coverage_data_completion_iff (st : ServerState)
    (hen : st.coverageEnabled = true) :
    ((allCoverageData st = .ok (some ())) ↔
      st.completedSuites = st.registeredSuites)
    ∧ (st.completedSuites ≠ st.registeredSuites →
        allCoverageData st = .error .timeoutErr) := by
  have hb := blockUntilGo_eq (hasAllCoverage st) 0
  by_cases hc : st.completedSuites = st.registeredSuites
  · have htrue : hasAllCoverage st = true := by
      simp [hasAllCoverage, hc]
    rw [htrue] at hb
    constructor
    · constructor
      · intro _; exact hc
      · intro _; simp [allCoverageData, hen, htrue, hb]
    · intro hne; exact absurd hc hne
  · have hfalse : hasAllCoverage st = false := by
      simp only [hasAllCoverage, decide_eq_false_iff_not]
      intro heq
      exact hc (suiteNameList_inj heq)
    rw [hfalse] at hb
    have herr : allCoverageData st = .error .timeoutErr := by
      simp [allCoverageData, hen, hfalse, hb]
    constructor
    · constructor
      · intro h; rw [herr] at h; cases h
      · intro h; exact absurd h hc
    · intro _; exact herr

/-- Witness for C2 at a concrete input: with completion set equal to the
registered set, `all_coverage_data` returns the data. -/
theorem c2_all_coverage_data_completion_iff_witness :
    c2Server.coverageEnabled = true
    ∧ (((allCoverageData c2Server = .ok (some ())) ↔
        c2Server.completedSuites = c2Server.registeredSuites)
      ∧ (c2Server.completedSuites ≠ c2Server.registeredSuites →
          allCoverageData c2Server = .error .timeoutErr)) :=
  ⟨rfl, c2_all_coverage_data_completion_iff c2Server rfl⟩

/-- Exact behavior of util.py `retry` when invocation `i + k` raises a
fail-fast exception after `k` earlier retryable failures: the exception
is re-raised at once, invocation `i + k` is the last one, and recovery
ran only for the earlier failures. -/
lemma utilRetryGo_fail_fast {α : Type} (f : Nat → Except PyExc α)
    (ff : PyExc → Bool) (maxA nb : Nat) (rec : Bool) (e : PyExc) :
    ∀ (k i : Nat), f (i + k) = .error e → ff e = true →
      (∀ j, i ≤ j → j < i + k → ∃ e2, f j = .error e2 ∧ ff e2 = false) →
      i + k < maxA →
      utilRetryGo f ff maxA nb rec i =
        ⟨.error e, i + k + 1, recoverCount rec nb k i⟩ := by
  intro k
  induction k with
  | zero =>
    intro i hf hff _ _
    rw [Nat.add_zero] at hf
    unfold utilRetryGo
    rw [hf]
    simp [hff, recoverCount]
  | succ k ih =>
    intro i hf hff hprev hlt
    obtain ⟨e2, hf2, hff2⟩ := hprev i le_rfl (by omega)
    unfold utilRetryGo
    rw [hf2]
    have hm : ¬ (maxA ≤ i + 1) := by omega
    have hrest := ih (i + 1)
      (by rw [show i + 1 + k = i + (k + 1) by omega]; exact hf) hff
      (fun j hj1 hj2 => hprev j (by omega) (by omega)) (by omega)
    simp only [hff2, Bool.false_eq_true, if_false, dif_neg hm, hrest,
      recoverCount]
    have harith : i + 1 + k + 1 = i + (k + 1) + 1 := by omega
    rw [harith]

/-- C6: Fail-fast short-circuits retry.  For every call to the retry
primitive (util.py `retry`), if an invocation of the attempt function
raises an exception whose type is in the `fail_fast` list, that
exception is re-raised immediately: the attempt function is not invoked
again and no recovery is performed for it (recovery ran only for the
earlier, retryable failures; with a first-attempt fail-fast exception
the recovery function is never called, since `recoverCount rec nb 0 0 =
0`).  In particular, `SrcInstrumenter.start()` with a missing tool
executable (`OSError` from spawning) fails on the first attempt without
retrying, raising the could-not-find `SrcInstrumenterError`. -/
theorem c6_fail_fast_short_circuits :
    (∀ (α : Type) (f : Nat → Except PyExc α) (ff : PyExc → Bool)
        (maxA nb : Nat) (rec : Bool) (k : Nat) (e : PyExc),
      f k = .error e → ff e = true →
      (∀ j, j < k → ∃ e2, f j = .error e2 ∧ ff e2 = false) →
      k < maxA →
      utilRetry f ff maxA nb rec = ⟨.error e, k + 1, recoverCount rec nb k 0⟩)
    ∧ startRun "jscover.jar" (fun _ => .error .osErr)
        = (.error (.srcInstrumenterErr
            "Could not find JSCover JAR file at \x27jscover.jar\x27"), 1) := by
  constructor
  · intro α f ff maxA nb rec k e hf hff hprev hlt
    have := utilRetryGo_fail_fast f ff maxA nb rec e k 0
      (by simpa using hf) hff (fun j _ hj => hprev j (by omega)) (by omega)
    simpa [utilRetry] using this
  · simp [startRun, covRetry, covRetryGo, isOSErr, maxStartAttempts]

/-- Witness for C6 at a concrete input: `f` fails retryably once and
then fail-fast; the retry makes exactly two attempts and one recovery
call, and re-raises the fail-fast exception. -/
theorem c6_fail_fast_short_circuits_witness :
    ((fun i => if i = 0 then (.error .connectionErr : Except PyExc String)
        else .error .osErr) 1 = .error .osErr)
    ∧ utilRetry
        (fun i => if i = 0 then (.error .connectionErr : Except PyExc String)
          else .error .osErr)
        isOSErr 10 1 true
      = ⟨.error .osErr, 2, recoverCount true 1 1 0⟩ :=
  ⟨rfl,
    c6_fail_fast_short_circuits.1 String
      (fun i => if i = 0 then .error .connectionErr else .error .osErr)
      isOSErr 10 1 true 1 .osErr rfl rfl
      (fun j hj => by
        interval_cases j
        exact ⟨.connectionErr, rfl, rfl⟩)
      (by omega)⟩

/-- A run of `SrcInstrumenter._retry` over a `try_func` that raises the
same retryable exception at every attempt exhausts the budget: the
number of invocations equals `max_attempts` and the exception is
re-raised. -/
lemma covRetryGo_const_error {α : Type} (f : Nat → Except PyExc α)
    (ff : PyExc → Bool) (maxA : Nat) (e : PyExc)
    (hf : ∀ i, f i = .error e) (hff : ff e = false) :
    ∀ (k i : Nat), maxA = i + k + 1 →
      (covRetryGo f ff maxA i).result = .error e
      ∧ (covRetryGo f ff maxA i).attempts = maxA
      ∧ ((covRetryGo f ff maxA i).ops.filter (fun op => match op with
          | .attemptOp _ => true
          | _ => false)).length = maxA - i := by
  intro k
  induction k with
  | zero =>
    intro i hmax
    unfold covRetryGo
    rw [hf i]
    have hm : maxA ≤ i + 1 := by omega
    simp [hff, hm]
    omega
  | succ k ih =>
    intro i hmax
    unfold covRetryGo
    rw [hf i]
    have hm : ¬ (maxA ≤ i + 1) := by omega
    obtain ⟨ih1, ih2, ih3⟩ := ih (i + 1) (by omega)
    simp [hff, hm, ih1, ih2, ih3]
    omega

/-- The retry loop of `SrcInstrumenter._retry` performs no recovery
operation: its body (coverage.py lines 144-164) only invokes `try_func`
and sleeps. -/
lemma covRetryGo_no_recover {α : Type} (f : Nat → Except PyExc α)
    (ff : PyExc → Bool) (maxA : Nat) :
    ∀ (n i : Nat), maxA - i ≤ n →
      LoopOp.recoverOp ∉ (covRetryGo f ff maxA i).ops := by
  intro n
  induction n with
  | zero =>
    intro i hn
    unfold covRetryGo
    cases hfi : f i with
    | ok a => simp
    | error e =>
      have hm : maxA ≤ i + 1 := by omega
      by_cases hffe : ff e <;> simp [hffe, hm]
  | succ n ih =>
    intro i hn
    unfold covRetryGo
    cases hfi : f i with
    | ok a => simp
    | error e =>
      by_cases hffe : ff e
      · simp [hffe]
      · by_cases hm : maxA ≤ i + 1
        · simp [hffe, hm]
        · simp [hffe, hm]
          exact ih (i + 1) (by omega)

/-- C5 counterexample: with the instrumenter service answering 404 to
every request, `instrumented_src` issues ten HTTP GETs — not exactly one
— before the could-not-retrieve `SrcInstrumenterError` is raised. -/
theorem c5_non200_counterexample :
    (instrumentedSrcRun 12345 "src.js" (fun _ => .resp 404 "")).httpGets = 10
    ∧ ¬ (instrumentedSrcRun 12345 "src.js" (fun _ => .resp 404 "")).httpGets
        = 1
    ∧ (instrumentedSrcRun 12345 "src.js" (fun _ => .resp 404 "")).result
      = .error (.srcInstrumenterErr
          "Could not retrieve url \x27http://127.0.0.1:12345/src.js\x27: status code 404") := by
  refine ⟨?_, ?_, ?_⟩ <;>
    simp [instrumentedSrcRun, covRetry, covRetryGo, getSrcFromJscover,
      jscoverUrl, maxConnectAttempts] <;>
    decide

/-- C5 (amended): a sustained non-200 HTTP status is retried like any
other failure, up to `MAX_CONNECT_ATTEMPTS` HTTP GETs, and then raised
as the could-not-retrieve `SrcInstrumenterError` naming the URL and
status code; a sustained connection failure is likewise retried up to
the attempt budget and then raised as the could-not-connect
`SrcInstrumenterError`. -/
theorem c5_non200_retried_then_raised (port : Nat) (rel : String)
    (status2 : Nat) (txt : String) (hs : status2 ≠ 200) :
    ((instrumentedSrcRun port rel (fun _ => .resp status2 txt)).result
      = .error (.srcInstrumenterErr
          ("Could not retrieve url \x27" ++ jscoverUrl port rel
            ++ "\x27: status code " ++ toString status2))
      ∧ (instrumentedSrcRun port rel (fun _ => .resp status2 txt)).httpGets
        = maxConnectAttempts)
    ∧ ((instrumentedSrcRun port rel (fun _ => .connErr)).result
      = .error (.srcInstrumenterErr "Could not connect to JSCover server.")
      ∧ (instrumentedSrcRun port rel (fun _ => .connErr)).httpGets
        = maxConnectAttempts) := by
  constructor
  · have h := covRetryGo_const_error
      (fun i => getSrcFromJscover port rel (.resp status2 txt)) (fun _ => false)
      maxConnectAttempts
      (.srcInstrumenterErr
        ("Could not retrieve url \x27" ++ jscoverUrl port rel
          ++ "\x27: status code " ++ toString status2))
      (fun i => by simp [getSrcFromJscover, hs]) rfl 9 0 (by simp [maxConnectAttempts])
    obtain ⟨h1, h2, h3⟩ := h
    refine ⟨?_, ?_⟩
    · simp [instrumentedSrcRun, covRetry, h1]
    · simpa [instrumentedSrcRun, covRetry, maxConnectAttempts] using h3
  · have h := covRetryGo_const_error
      (fun i => getSrcFromJscover port rel .connErr) (fun _ => false)
      maxConnectAttempts .connectionErr
      (fun i => by simp [getSrcFromJscover]) rfl 9 0 (by simp [maxConnectAttempts])
    obtain ⟨h1, h2, h3⟩ := h
    refine ⟨?_, ?_⟩
    · simp [instrumentedSrcRun, covRetry, h1]
    · simpa [instrumentedSrcRun, covRetry, maxConnectAttempts] using h3

/-- Witness for C5 at a concrete input: status 404 on port 80 for
`a.js`. -/
theorem c5_non200_retried_then_raised_witness :
    (404 : Nat) ≠ 200
    ∧ (((instrumentedSrcRun 80 "a.js" (fun _ => .resp 404 "x")).result
      = .error (.srcInstrumenterErr
          ("Could not retrieve url \x27" ++ jscoverUrl 80 "a.js"
            ++ "\x27: status code " ++ toString (404 : Nat)))
      ∧ (instrumentedSrcRun 80 "a.js" (fun _ => .resp 404 "x")).httpGets
        = maxConnectAttempts)
    ∧ ((instrumentedSrcRun 80 "a.js" (fun _ => .connErr)).result
      = .error (.srcInstrumenterErr "Could not connect to JSCover server.")
      ∧ (instrumentedSrcRun 80 "a.js" (fun _ => .connErr)).httpGets
        = maxConnectAttempts)) :=
  ⟨by decide, c5_non200_retried_then_raised 80 "a.js" 404 "x" (by decide)⟩

/-- C4 counterexample: no run of `instrumented_src` — in particular none
in which the fetch fails more than once — performs a subprocess restart
inside the retry loop: the retry helper of coverage.py has no recovery
action at all. -/
theorem c4_no_restart_counterexample :
    ¬ ∃ (port : Nat) (rel : String) (trace : Nat → GetOutcome),
      (2 ≤ (instrumentedSrcRun port rel trace).httpGets)
      ∧ 1 ≤ (instrumentedSrcRun port rel trace).startCallsInRetryLoop := by
  rintro ⟨port, rel, trace, -, hstart⟩
  have hno := covRetryGo_no_recover
    (fun i => getSrcFromJscover port rel (trace i)) (fun _ => false)
    maxConnectAttempts maxConnectAttempts 0 (by omega)
  have : (instrumentedSrcRun port rel trace).startCallsInRetryLoop = 0 := by
    simp only [instrumentedSrcRun, covRetry]
    rw [List.length_eq_zero]
    rw [List.filter_eq_nil]
    intro a ha
    simp only [decide_eq_true_eq]
    intro heq
    exact hno (heq ▸ ha)
  omega

/-- C4 (amended): `instrumented_src` retries failed HTTP fetches up to
`MAX_CONNECT_ATTEMPTS` with a fixed wait and performs no subprocess
restart as a recovery action; in particular a run whose first fetch
fails with a connection error and whose second succeeds returns the
fetched source after exactly two GETs and zero restarts. -/
theorem c4_retry_without_restart (port : Nat) (rel : String) (txt : String)
    (trace : Nat → GetOutcome) (h0 : trace 0 = .connErr)
    (h1 : trace 1 = .resp 200 txt) :
    (instrumentedSrcRun port rel trace).result = .ok txt
    ∧ (instrumentedSrcRun port rel trace).httpGets = 2
    ∧ (instrumentedSrcRun port rel trace).startCallsInRetryLoop = 0 := by
  have hno := covRetryGo_no_recover
    (fun i => getSrcFromJscover port rel (trace i)) (fun _ => false)
    maxConnectAttempts maxConnectAttempts 0 (by omega)
  have hstart : (instrumentedSrcRun port rel trace).startCallsInRetryLoop
      = 0 := by
    simp only [instrumentedSrcRun, covRetry]
    rw [List.length_eq_zero, List.filter_eq_nil]
    intro a ha
    simp only [decide_eq_true_eq]
    intro heq
    exact hno (heq ▸ ha)
  refine ⟨?_, ?_, hstart⟩ <;>
    simp [instrumentedSrcRun, covRetry, covRetryGo, h0, h1,
      getSrcFromJscover, maxConnectAttempts]

/-- Witness for C4 at a concrete input: connection error then
success. -/
theorem c4_retry_without_restart_witness :
    ((fun i => if i = 0 then GetOutcome.connErr else .resp 200 "src") 0
      = .connErr)
    ∧ ((instrumentedSrcRun 80 "a.js"
        (fun i => if i = 0 then GetOutcome.connErr else .resp 200 "src")).result
      = .ok "src"
    ∧ (instrumentedSrcRun 80 "a.js"
        (fun i => if i = 0 then GetOutcome.connErr else .resp 200 "src")).httpGets
      = 2
    ∧ (instrumentedSrcRun 80 "a.js"
        (fun i => if i = 0 then GetOutcome.connErr else .resp 200 "src")).startCallsInRetryLoop
      = 0) :=
  ⟨rfl, c4_retry_without_restart 80 "a.js" "src"
    (fun i => if i = 0 then GetOutcome.connErr else .resp 200 "src") rfl rfl⟩

/-- Every port returned by the candidate loop of `_random_unused_port`
is outside the claimed set and inside 10000..40000. -/
lemma randomPortLoop_spec (stream : Nat → Nat) (used : List Nat) :
    ∀ (fuel i p i2 : Nat),
      randomPortLoop stream used i fuel = some (p, i2) →
      p ∉ used ∧ 10000 ≤ p ∧ p ≤ 40000 := by
  intro fuel
  induction fuel with
  | zero => intro i p i2 h; simp [randomPortLoop] at h
  | succ fuel ih =>
    intro i p i2 h
    unfold randomPortLoop at h
    by_cases hmem : randintPort (stream i) ∈ used
    · rw [if_pos hmem] at h
      exact ih _ _ _ h
    · rw [if_neg hmem] at h
      obtain ⟨h1, h2⟩ := Prod.mk.injEq .. ▸ Option.some.injEq .. ▸ h
      subst h1
      refine ⟨hmem, ?_, ?_⟩ <;>
        · unfold randintPort
          have := Nat.mod_lt (stream i) (y := 30001) (by omega)
          omega

/-- `_random_unused_port` returns a fresh in-range port and appends it
to the claimed-port list (which therefore never shrinks). -/
lemma randomUnusedPort_spec (stream : Nat → Nat) (i : Nat) (used : List Nat)
    (fuel p i2 : Nat) (used2 : List Nat)
    (h : randomUnusedPort stream i used fuel = some (p, i2, used2)) :
    p ∉ used ∧ 10000 ≤ p ∧ p ≤ 40000 ∧ used2 = used ++ [p] := by
  unfold randomUnusedPort at h
  cases hl : randomPortLoop stream used i fuel with
  | none => rw [hl] at h; cases h
  | some q =>
    rw [hl] at h
    obtain ⟨hq, hrange1, hrange2⟩ := randomPortLoop_spec stream used fuel i q.1 q.2 (by rw [hl])
    cases h
    exact ⟨hq, hrange1, hrange2, rfl⟩

/-- A successful sequence of port selections yields pairwise-distinct
in-range ports, none of them previously claimed, and extends the
claimed-port list by exactly those ports. -/
lemma selectPorts_spec (stream : Nat → Nat) (fuel : Nat) :
    ∀ (n i : Nat) (used ps : List Nat) (i2 : Nat) (used2 : List Nat),
      selectPorts stream fuel n i used = some (ps, i2, used2) →
      ps.Nodup
      ∧ (∀ p ∈ ps, p ∉ used ∧ 10000 ≤ p ∧ p ≤ 40000)
      ∧ used2 = used ++ ps := by
  intro n
  induction n with
  | zero =>
    intro i used ps i2 used2 h
    unfold selectPorts at h
    cases h
    simp
  | succ n ih =>
    intro i used ps i2 used2 h
    unfold selectPorts at h
    cases hr : randomUnusedPort stream i used fuel with
    | none => rw [hr] at h; cases h
    | some q =>
      rw [hr] at h
      obtain ⟨p, i3, used3⟩ := q
      dsimp only at h
      obtain ⟨hp, hr1, hr2, hused3⟩ :=
        randomUnusedPort_spec stream i used fuel p i3 used3 hr
      cases hs : selectPorts stream fuel n i3 used3 with
      | none => rw [hs] at h; cases h
      | some q2 =>
        rw [hs] at h
        obtain ⟨ps2, i4, used4⟩ := q2
        dsimp only at h
        obtain ⟨hnodup, hmem, hused4⟩ :=
          ih i3 used3 ps2 i4 used4 hs
        cases h
        refine ⟨?_, ?_, ?_⟩
        · refine List.nodup_cons.mpr ⟨?_, hnodup⟩
          intro hpin
          have := (hmem p hpin).1
          rw [hused3] at this
          exact this (List.mem_append_right used (List.mem_singleton.mpr rfl))
        · intro q hq
          rcases List.mem_cons.mp hq with rfl | hq2
          · exact ⟨hp, hr1, hr2⟩
          · obtain ⟨hnot, hge, hle⟩ := hmem q hq2
            rw [hused3] at hnot
            exact ⟨fun hin => hnot (List.mem_append_left _ hin), hge, hle⟩
        · rw [hused4, hused3]
          simp

/-- C7: Port non-reuse.  For every sequence of `SrcInstrumenter` port
selections within one process (each drawing through
`_random_unused_port` against the process-wide `used_ports` list,
including selections repeated because of bind-conflict retries), all
chosen ports are pairwise distinct, each is drawn from 10000..40000
excluding the claimed set at its selection time, and the claimed set
only ever grows by the chosen ports — hence starting two instrumenters
back-to-back never yields the same port. -/
theorem c7_port_non_reuse (stream : Nat → Nat) (fuel n i : Nat)
    (used0 ps : List Nat) (i2 : Nat) (used2 : List Nat)
    (h : selectPorts stream fuel n i used0 = some (ps, i2, used2)) :
    ps.Nodup
    ∧ (∀ p ∈ ps, p ∉ used0 ∧ 10000 ≤ p ∧ p ≤ 40000)
    ∧ used2 = used0 ++ ps :=
  selectPorts_spec stream fuel n i used0 ps i2 used2 h

/-- Witness for C7 at a concrete input: two back-to-back selections on a
stream that forces the second selection to retry its first candidate
(already claimed by the first selection); the two chosen ports differ. -/
theorem c7_port_non_reuse_witness :
    selectPorts (fun i => if i = 2 then 1 else 0) 5 2 0 []
      = some ([10000, 10001], 3, [10000, 10001])
    ∧ ([10000, 10001] : List Nat).Nodup
    ∧ (∀ p ∈ ([10000, 10001] : List Nat),
        p ∉ ([] : List Nat) ∧ 10000 ≤ p ∧ p ≤ 40000)
    ∧ ([10000, 10001] : List Nat) = [] ++ [10000, 10001] :=
  ⟨by decide,
    c7_port_non_reuse (fun i => if i = 2 then 1 else 0) 5 2 0 [] [10000, 10001]
      3 [10000, 10001] (by decide)⟩

/-- C9 counterexample: `stop()` with a subprocess whose `terminate()`
raises (e.g. an `OSError` because the process already exited and was
reaped) propagates the exception — the code wraps `terminate()` in no
handler. -/
theorem c9_stop_counterexample :
    stopRun (some (.termRaises .osErr)) = .error .osErr
    ∧ stopRun (some (.termRaises .osErr)) ≠ .ok () :=
  ⟨rfl, fun h => Except.noConfusion h⟩

/-- C9 (amended): `stop()` raises no exception when no subprocess was
ever started (it only logs a warning) or when `terminate()` returns
normally; but an exception raised by `terminate()` itself propagates to
the caller. -/
theorem c9_stop_no_raise_when_terminate_ok (j : Option TermBehavior)
    (h : j = none ∨ j = some .termOk) : stopRun j = .ok () := by
  rcases h with rfl | rfl <;> rfl

/-- Witness for C9 at a concrete input: never-started instrumenter. -/
theorem c9_stop_no_raise_when_terminate_ok_witness :
    ((none : Option TermBehavior) = none ∨
      (none : Option TermBehavior) = some .termOk)
    ∧ stopRun none = .ok () :=
  ⟨Or.inl rfl, c9_stop_no_raise_when_terminate_ok none (Or.inl rfl)⟩

/-- C8: evaluation of the byte-range code at the failing inputs.  For
`Range: bytes=0-0` on a 10-byte resource the server answers 206 with
`Content-Range: bytes 0-0/10` and `Content-Length: 1` but writes zero
body bytes (`copy_len = end - start = 0` makes `copyfileobj` read
nothing); for `Range: bytes=2-5` it writes the 8 bytes from offset 2 to
the end of the file instead of the 4 requested bytes (`copy_len` is a
chunk size, so copying runs to EOF). -/
theorem c8_range_body_eval :
    ((handleRangedRequest c8Content (.ranges [(some 0, some 0)])).status = 206
    ∧ (handleRangedRequest c8Content (.ranges [(some 0, some 0)])).contentRange
      = some "bytes 0-0/10"
    ∧ (handleRangedRequest c8Content (.ranges [(some 0, some 0)])).contentLength
      = 1
    ∧ (handleRangedRequest c8Content (.ranges [(some 0, some 0)])).body = [])
    ∧ ((handleRangedRequest c8Content (.ranges [(some 2, some 5)])).contentLength
      = 4
    ∧ (handleRangedRequest c8Content (.ranges [(some 2, some 5)])).body
      = [2, 3, 4, 5, 6, 7, 8, 9]) := by
  decide

/-- C10: Over-long ranges are clamped, not rejected.  For every resource
and every `Range: bytes=start-end` with `0 ≤ start ≤ end` and
`start ≤ size - 1`, the request is never treated as unsatisfiable (the
response status is 206, not 406) and the end position is clamped to
`size - 1` both in the parsed range and in the `Content-Range`
header. -/
theorem c10_overlong_range_clamped (content : List Nat) (s e : Int)
    (h0 : 0 ≤ s) (hse : s ≤ e) (hsN : s < (content.length : Int)) :
    parseByteRange (some s) (some e) (content.length : Int)
      = .range s (min e ((content.length : Int) - 1))
    ∧ (handleRangedRequest content (.ranges [(some s, some e)])).status = 206
    ∧ (handleRangedRequest content (.ranges [(some s, some e)])).contentRange
      = some (contentRangeStr s (min e ((content.length : Int) - 1))
          (content.length : Int)) := by
  have hne : ¬ (s > e) := by omega
  have hparse : parseByteRange (some s) (some e) (content.length : Int)
      = .range s (min e ((content.length : Int) - 1)) := by
    simp [parseByteRange, hne]
  refine ⟨hparse, ?_, ?_⟩ <;>
    simp [handleRangedRequest, requestedByteRange, hparse, sendResponse]

/-- Witness for C10 at the spec example: `bytes=0-999999` on a 100-byte
resource yields 206 with the end clamped to 99, rather than a 406. -/
theorem c10_overlong_range_clamped_witness :
    ((0 : Int) ≤ 0 ∧ (0 : Int) ≤ 999999
      ∧ (0 : Int) < ((List.replicate 100 (0 : Nat)).length : Int))
    ∧ (parseByteRange (some 0) (some 999999)
        ((List.replicate 100 (0 : Nat)).length : Int)
      = .range 0 (min 999999 (((List.replicate 100 (0 : Nat)).length : Int) - 1))
    ∧ (handleRangedRequest (List.replicate 100 (0 : Nat))
        (.ranges [(some 0, some 999999)])).status = 206
    ∧ (handleRangedRequest (List.replicate 100 (0 : Nat))
        (.ranges [(some 0, some 999999)])).contentRange
      = some (contentRangeStr 0
          (min 999999 (((List.replicate 100 (0 : Nat)).length : Int) - 1))
          ((List.replicate 100 (0 : Nat)).length : Int))) :=
  ⟨⟨by decide, by decide, by decide⟩,
    c10_overlong_range_clamped (List.replicate 100 0) 0 999999
      (by decide) (by decide) (by decide)⟩

/-- C3: evaluation of the handler chain at the failing input.  With
coverage enabled, `src.js` registered as a source file of
`test-suite-0`, the instrumenter raising `SrcInstrumenterError` for it,
and the uninstrumented file on disk containing `var x = 1;`, the server
responds 200 with body `"None"` — `load_page` passes the `None` returned
by `_send_instrumented_src` through `safe_str_buffer`, which yields a
`StringIO` holding `str(None)`, so the request never falls through to
the dependency handler and the on-disk bytes are not served. -/
theorem c3_fallback_serves_none_string :
    dispatchIncludeGet c3DescDict c3InstrDict c3Fs "test-suite-0" "src.js"
      = (200, "None")
    ∧ c3Fs (pathJoin "/root" "src.js") = some "var x = 1;"
    ∧ ("None" : String) ≠ "var x = 1;" := by
  decide

end JsTestTool
